import Mathlib

set_option linter.unusedVariables false

/-!
Verification of the vue-fastapi frontend (okyspace/vue-fastapi):
shallow embedding of the Vue route guard (`src/frontend/vue-keycloak/src/main.ts`),
the authenticated component (`src/frontend/vue-keycloak/src/App.vue`),
the singleton keycloak module (`src/frontend/vue-keycloak/src/security/keycloak.ts`),
and the two shell smoke-test scripts that exercise the backend API.
The keycloak-js session manager itself is an npm dependency and is not part of
the repository source; where a claim depends on its behaviour, the relevant
operation is modelled from the specification and marked as such.
-/

/-! ## Route guard (`main.ts`) -/

/-- Route metadata as declared in `main.ts`: `meta: { requiresAuth: true }`.
An absent `requiresAuth` key (falsy in JS) is modelled as `false`. -/
structure RouteMeta where
  requiresAuth : Bool
deriving DecidableEq, Repr

/-- A matched route record; the guard only reads `record.meta`. -/
structure RouteRecord where
  meta : RouteMeta
deriving DecidableEq, Repr

/-- The target of a navigation: vue-router's `matched` field is the chain of
matched route records, parents included. -/
structure Route where
  matched : List RouteRecord
deriving DecidableEq, Repr

/-- The `matched.some((record) => record.meta.requiresAuth)` test from
`router.beforeEach` in `main.ts`. -/
def routeRequiresAuth (target : Route) : Bool :=
  target.matched.any fun record => record.meta.requiresAuth

/-- The observable calls the guard in `main.ts` can make. -/
inductive GuardCall where
  | nextCall
  | loginCall
deriving DecidableEq, BEq, Repr

/-- Outcome of the (asynchronous) `keycloak.login()` call: whether the login
eventually resolves with the session Authenticated. -/
inductive LoginOutcome where
  | success
  | failure
deriving DecidableEq, Repr

/-- The complete trace of calls made by `router.beforeEach` in `main.ts` for
one navigation, as a function of the target route, the current value of
`keycloak.authenticated` and the eventual outcome of `keycloak.login()`.
The source calls `keycloak.login()` without awaiting it and without ever
invoking `next()` in that branch, so the trace does not depend on `outcome`. -/
def guardTrace (target : Route) (authenticated : Bool)
    (outcome : LoginOutcome) : List GuardCall :=
  if routeRequiresAuth target then
    if !authenticated then
      [GuardCall.loginCall]
    else
      [GuardCall.nextCall]
  else
    [GuardCall.nextCall]

/-- A concrete protected route: the `/` route of `main.ts`, whose single
matched record carries `meta: { requiresAuth: true }`. -/
def protectedRoute : Route :=
  ⟨[⟨⟨true⟩⟩]⟩

/-! ## Session manager (keycloak-js dependency, modelled from the spec) -/

/-- Session states named by the spec (§3). -/
inductive SessionState where
  | Unauthenticated
  | Authenticating
  | Authenticated
  | Expired
  | ErrorState
deriving DecidableEq, BEq, Repr

/-- The Session entity of the spec (§3): state, token fields and the lazily
populated claim mapping. -/
structure Session where
  state : SessionState
  accessToken : Option String
  refreshToken : Option String
  userInfo : List (String × String)
deriving DecidableEq, Repr

/-- `onLoad` values accepted by `init` (spec §4.1). -/
inductive OnLoad where
  | loginRequired
  | checkSso
deriving DecidableEq, Repr

/-- The options object passed to `init` in `App.vue`:
`{ onLoad: 'login-required' }`. -/
structure InitOptions where
  onLoad : OnLoad
deriving DecidableEq, Repr

/-- Modelled from the spec: keycloak-js `init(options)` (the session-manager
implementation is an npm dependency, absent from src/). It bootstraps the
session — with `login-required`, redirecting to the identity provider when
unauthenticated — and resolves asynchronously with whether the session ended
up Authenticated. `providerAuthenticated` stands for the identity provider's
verdict once the bootstrap (redirect included) has completed. -/
def kcInit (options : InitOptions) (s : Session)
    (providerAuthenticated : Bool) : Session × Bool :=
  if providerAuthenticated then
    ({ s with state := SessionState.Authenticated }, true)
  else
    ({ s with state := SessionState.Unauthenticated }, false)

/-- Modelled from the spec: keycloak-js `logout()` (absent from src/):
transitions to Unauthenticated and clears both token fields regardless of the
prior state and of whether the best-effort end-session notification succeeds
(`networkOk`); the returned error slot is always empty — logout never fails
observably to its caller. -/
def kcLogout (s : Session) (networkOk : Bool) : Session × Option String :=
  ({ s with
      state := SessionState.Unauthenticated
      accessToken := none
      refreshToken := none }, none)

/-- Modelled from the spec: keycloak-js `loadUserInfo()` (absent from src/):
fetches the claim mapping from the identity provider's userinfo endpoint with
the current access token and caches it into `userInfo`; while not
Authenticated it fails (NotAuthenticatedError) and leaves the session
unchanged. `claims` stands for the provider's response. -/
def kcLoadUserInfo (s : Session) (claims : List (String × String)) :
    Session × Option (List (String × String)) :=
  match s.state with
  | SessionState.Authenticated => ({ s with userInfo := claims }, some claims)
  | _ => (s, none)

/-- State of the session manager relevant to the at-most-one-in-flight
guarantee: the identifier of the pending login exchange when one is in
flight, a fresh-identifier counter, and the number of network exchanges
started so far. -/
structure Manager where
  pending : Option Nat
  freshId : Nat
  exchanges : Nat
deriving DecidableEq, Repr

/-- Modelled from the spec: keycloak-js `login()` under the
at-most-one-in-flight guarantee (§5, absent from src/): a call while a login
is pending attaches to the in-flight exchange and starts no new one; a call
with none pending starts exactly one new network exchange. The returned `Nat`
identifies the exchange whose result the caller awaits. -/
def kcLogin (m : Manager) : Manager × Nat :=
  match m.pending with
  | some id => (m, id)
  | none =>
      ({ pending := some m.freshId
         freshId := m.freshId + 1
         exchanges := m.exchanges + 1 }, m.freshId)

/-! ## Component (`App.vue`) -/

/-- The data fields of `YourVueComponent`:
`authenticated: boolean = false; userInfo: any = {}`. -/
structure ComponentState where
  authenticated : Bool
  userInfo : List (String × String)
deriving DecidableEq, Repr

/-- The component's initial field values from `App.vue`. -/
def initialComponent : ComponentState :=
  ⟨false, []⟩

/-- The keycloak calls the component can make. -/
inductive CompEffect where
  | initCall
  | loadUserInfoCall
  | kcLoginCall
  | kcLogoutCall
deriving DecidableEq, BEq, Repr

/-- The keycloak calls issued during `mounted()` in `App.vue`, as a function
of the boolean `init` resolves with: `init` is always called, and
`loadUserInfo` is called exactly when that boolean is true. -/
def mountedEffects (initResult : Bool) : List CompEffect :=
  CompEffect.initCall ::
    (if initResult then [CompEffect.loadUserInfoCall] else [])

/-- The component state after the `mounted()` callbacks of `App.vue` have
run: `this.authenticated = authenticated`, then, only when authenticated,
`this.userInfo = userInfo` with the value `loadUserInfo` resolved with. -/
def mountedRun (initResult : Bool) (fetched : List (String × String)) :
    ComponentState :=
  let afterInit := { initialComponent with authenticated := initResult }
  if initResult then
    { afterInit with userInfo := fetched }
  else
    afterInit

/-- The component's `login()` method: it only calls `keycloak.login()` and
writes no component field. -/
def compLogin (c : ComponentState) : ComponentState × List CompEffect :=
  (c, [CompEffect.kcLoginCall])

/-- The component's `logout()` method: it only calls `keycloak.logout()` and
writes no component field. -/
def compLogout (c : ComponentState) : ComponentState × List CompEffect :=
  (c, [CompEffect.kcLogoutCall])

/-! ## Singleton keycloak module (`security/keycloak.ts`) -/

/-- The configuration record of `keycloak.ts`. -/
structure KeycloakConfig where
  realm : String
  url : String
  clientId : String
deriving DecidableEq, Repr

/-- The literal `keycloakConfig` constant of `keycloak.ts`. -/
def keycloakConfig : KeycloakConfig :=
  { realm := "your-realm"
    url := "https://your-keycloak-server/auth"
    clientId := "your-vue-client-id" }

/-- A keycloak instance as produced by the `Keycloak(config)` constructor;
only its configuration is relevant here. -/
structure KeycloakInstance where
  config : KeycloakConfig
deriving DecidableEq, Repr

/-- The `Keycloak(keycloakConfig)` constructor call of `keycloak.ts`. -/
def mkKeycloak (c : KeycloakConfig) : KeycloakInstance :=
  ⟨c⟩

/-- ES-module evaluation state for the `keycloak.ts` module: the cached
default export once the module has been evaluated, and how many instances
have been created. -/
structure ModuleRegistry where
  cached : Option KeycloakInstance
  created : Nat
deriving DecidableEq, Repr

/-- Importing `keycloak.ts` under ES-module semantics: the module body — the
single `Keycloak(keycloakConfig)` call — runs on the first import only;
every later import returns the cached default export. -/
def importKeycloakModule (r : ModuleRegistry) : ModuleRegistry × KeycloakInstance :=
  match r.cached with
  | some k => (r, k)
  | none =>
      let k := mkKeycloak keycloakConfig
      (⟨some k, r.created + 1⟩, k)

/-- Application bootstrap: `main.ts` (for the route guard) and `App.vue`
(for the component) both import `keycloak.ts`; the result is the final
registry and the instance each consumer received. -/
def appBoot : ModuleRegistry × KeycloakInstance × KeycloakInstance :=
  let first := importKeycloakModule ⟨none, 0⟩
  let second := importKeycloakModule first.1
  (second.1, first.2, second.2)

/-! ## Shell smoke-test requests (`src/unnamed/part_000`, `part_001`) -/

/-- An HTTP request as issued by curl in the test scripts: method, URL and
header list (name, value). -/
structure HttpRequest where
  method : String
  url : String
  headers : List (String × String)
deriving DecidableEq, Repr

/-- The `Accept: application/json` header. -/
def acceptJson : String × String :=
  ("Accept", "application/json")

/-- The `Content-Type: application/x-www-form-urlencoded` header. -/
def contentTypeForm : String × String :=
  ("Content-Type", "application/x-www-form-urlencoded")

/-- The `Authorization: Bearer <token>` header. -/
def authBearer (token : String) : String × String :=
  ("Authorization", "Bearer " ++ token)

/-- The identity-provider token endpoint URL used by both scripts. -/
def tokenEndpointUrl : String :=
  "http://keycloak.apps-crc.testing/realms/CommonServices/protocol/openid-connect/token"

/-- The backend API URL used by both scripts. -/
def backendUrl : String :=
  "http://127.0.0.1:8000"

/-- The opaque access-token value captured into the shell variable
`TOKEN_FRONTEND` in `part_000` (extracted from the provider response). -/
def tokenFrontendValue : String :=
  "TOKEN_FRONTEND"

/-- The opaque access-token value captured into the shell variable `TOKEN`
in `part_001`. -/
def tokenValue : String :=
  "TOKEN"

/-- The token request of `part_000` (lines 4-12): POST to the token
endpoint with Content-Type and Accept headers. -/
def p0_tokenRequest : HttpRequest :=
  ⟨"POST", tokenEndpointUrl, [contentTypeForm, acceptJson]⟩

/-- The backend API call of `part_000` (lines 16-19): GET with only the
Authorization header. -/
def p0_backendRequest : HttpRequest :=
  ⟨"GET", backendUrl, [authBearer tokenFrontendValue]⟩

/-- The first token request of `part_001` ("Test Keycloak Client"): POST
with only the Content-Type header. -/
def p1_clientTestRequest : HttpRequest :=
  ⟨"POST", tokenEndpointUrl, [contentTypeForm]⟩

/-- The second token request of `part_001` ("Get token"): POST with
Content-Type and Accept headers. -/
def p1_tokenRequest : HttpRequest :=
  ⟨"POST", tokenEndpointUrl, [contentTypeForm, acceptJson]⟩

/-- The backend API call of `part_001` ("Test secured endpoint", lines
30-34): GET with Accept and Authorization headers. -/
def p1_backendRequest : HttpRequest :=
  ⟨"GET", backendUrl, [acceptJson, authBearer tokenValue]⟩

/-- All requests the scripts address to the protected backend API. -/
def backendApiRequests : List HttpRequest :=
  [p0_backendRequest, p1_backendRequest]

/-- Whether a request carries the given header. -/
def hasHeader (r : HttpRequest) (h : String × String) : Bool :=
  r.headers.contains h

/-- Whether a request carries an `Authorization: Bearer ...` header for some
token. -/
def hasBearerAuth (r : HttpRequest) : Bool :=
  r.headers.any fun h =>
    h.1 == "Authorization" && h.2.toList.take 7 == "Bearer ".toList

/-! ## Theorems -/

/-- Claim C1: for every navigation to a route requiring authentication, the
guard never invokes `next()` while `keycloak.authenticated` is falsy,
whatever the login outcome. -/
theorem guard_never_next_when_unauthenticated (target : Route)
    (outcome : LoginOutcome) (h : routeRequiresAuth target = true) :
    (guardTrace target false outcome).contains GuardCall.nextCall = false := by
  simp [guardTrace, h]
  all_goals decide

/-- Witness for C1 at the concrete protected `/` route. -/
theorem guard_never_next_when_unauthenticated_witness :
    routeRequiresAuth protectedRoute = true ∧
      (guardTrace protectedRoute false LoginOutcome.success).contains
        GuardCall.nextCall = false :=
  ⟨by decide,
    guard_never_next_when_unauthenticated protectedRoute LoginOutcome.success
      (by decide)⟩

/-- Claim C2, counterexample: on the protected route with an unauthenticated
session, even when `keycloak.login()` resolves to Authenticated the guard
never invokes `next()` — the navigation is not allowed to proceed, contrary
to the claim that it proceeds once login resolves to Authenticated. -/
theorem guard_ignores_login_success :
    (guardTrace protectedRoute false LoginOutcome.success).contains
        GuardCall.loginCall = true ∧
      (guardTrace protectedRoute false LoginOutcome.success).contains
        GuardCall.nextCall = false := by
  decide

/-- Claim C2 as amended: the guard invokes `login()` and the navigation does
not proceed through this guard invocation regardless of the login outcome
(the result of the login promise is ignored by the guard). -/
theorem guard_login_then_no_next (target : Route) (outcome : LoginOutcome)
    (h : routeRequiresAuth target = true) :
    (guardTrace target false outcome).contains GuardCall.loginCall = true ∧
      (guardTrace target false outcome).contains GuardCall.nextCall = false := by
  simp [guardTrace, h]
  all_goals decide

/-- Witness for the amended C2 at the concrete protected route with a failing
login. -/
theorem guard_login_then_no_next_witness :
    routeRequiresAuth protectedRoute = true ∧
      ((guardTrace protectedRoute false LoginOutcome.failure).contains
          GuardCall.loginCall = true ∧
        (guardTrace protectedRoute false LoginOutcome.failure).contains
          GuardCall.nextCall = false) :=
  ⟨by decide,
    guard_login_then_no_next protectedRoute LoginOutcome.failure (by decide)⟩

/-- Claim C3: from every prior session state and regardless of the network
outcome of the end-session notification, `logout()` leaves the session
Unauthenticated and reports no error to its caller; the component's
`logout()` method delegates to exactly this keycloak call. -/
theorem logout_always_unauthenticated (s : Session) (networkOk : Bool)
    (c : ComponentState) :
    (kcLogout s networkOk).1.state = SessionState.Unauthenticated ∧
      (kcLogout s networkOk).2 = none ∧
      (compLogout c).2 = [CompEffect.kcLogoutCall] := by
  refine ⟨rfl, rfl, rfl⟩

/-- Claim C4: `init(options)` resolves with a boolean equal to whether the
session ended up Authenticated, and after the bootstrap
`init({ onLoad: 'login-required' })` of `mounted()` resolves, the
component's `authenticated` field equals that resolved boolean. -/
theorem init_resolves_authenticated_flag (options : InitOptions) (s : Session)
    (providerAuthenticated : Bool) (fetched : List (String × String)) :
    (kcInit options s providerAuthenticated).2 =
        ((kcInit options s providerAuthenticated).1.state ==
          SessionState.Authenticated) ∧
      (mountedRun (kcInit options s providerAuthenticated).2 fetched).authenticated =
        (kcInit options s providerAuthenticated).2 := by
  cases providerAuthenticated <;> simp [kcInit, mountedRun, initialComponent] <;>
    decide

/-- Claim C5: `loadUserInfo()` caches the fetched claims into `userInfo` on
an Authenticated session; in `mounted()` it is invoked exactly when `init`
resolved true, and when `init` resolves false the component's `userInfo`
stays the empty mapping. -/
theorem loadUserInfo_only_when_authenticated (s : Session)
    (claims fetched : List (String × String)) :
    (kcLoadUserInfo { s with state := SessionState.Authenticated } claims).1.userInfo =
        claims ∧
      (mountedEffects false).contains CompEffect.loadUserInfoCall = false ∧
      (mountedEffects true).contains CompEffect.loadUserInfoCall = true ∧
      (mountedRun false fetched).userInfo = [] := by
  refine ⟨rfl, by decide, by decide, rfl⟩

/-- Claim C6, counterexample: the backend API call of `part_000` carries the
`Authorization: Bearer ...` header but not the `Accept: application/json`
header, so not every backend request carries both. -/
theorem backend_request_missing_accept_header :
    hasBearerAuth p0_backendRequest = true ∧
      hasHeader p0_backendRequest acceptJson = false ∧
      p0_backendRequest ∈ backendApiRequests := by
  refine ⟨by decide, by decide, by decide⟩

/-- Claim C6 as amended: every request the scripts address to the protected
backend API carries an `Authorization: Bearer <access_token>` header; the
`part_001` backend request also carries `Accept: application/json`, but the
`part_000` backend request omits the Accept header. -/
theorem backend_requests_carry_bearer :
    backendApiRequests.all hasBearerAuth = true ∧
      hasHeader p1_backendRequest acceptJson = true ∧
      hasHeader p0_backendRequest acceptJson = false := by
  decide

/-- Claim C7: the keycloak module evaluates once at first import, so the
route guard (`main.ts`) and the component (`App.vue`) operate on one and the
same instance — exactly one instance is created for the application run —
and that instance carries the static literal configuration of
`keycloak.ts`. -/
theorem single_keycloak_instance :
    appBoot.2.1 = appBoot.2.2 ∧
      appBoot.1.created = 1 ∧
      appBoot.1.cached = some appBoot.2.1 ∧
      appBoot.2.1.config = keycloakConfig := by
  decide

/-- Claim C8: starting with no login in flight, a first `login()` call
starts exactly one network exchange, and a second call arriving while the
first is pending attaches to the same exchange: both callers await the same
exchange identifier and the exchange count has increased by exactly one. -/
theorem login_at_most_one_in_flight (n e : Nat) :
    (kcLogin (kcLogin ⟨none, n, e⟩).1).2 = (kcLogin ⟨none, n, e⟩).2 ∧
      (kcLogin (kcLogin ⟨none, n, e⟩).1).1.exchanges = e + 1 ∧
      (kcLogin ⟨none, n, e⟩).1.exchanges = e + 1 := by
  refine ⟨rfl, rfl, rfl⟩

/-- Claim C9: a navigation requires authentication when any matched record in
the chain declares `requiresAuth`, so a child record without its own flag
nested under a protected parent is still gated: the guard calls `login()`
and not `next()` when unauthenticated. -/
theorem nested_route_requires_auth (children : List RouteRecord)
    (outcome : LoginOutcome) :
    routeRequiresAuth ⟨RouteRecord.mk ⟨true⟩ :: children⟩ = true ∧
      guardTrace ⟨RouteRecord.mk ⟨true⟩ :: children⟩ false outcome =
        [GuardCall.loginCall] := by
  constructor
  · simp [routeRequiresAuth]
  · simp [guardTrace, routeRequiresAuth]

/-- Claim C10: the component's `login()` and `logout()` methods leave the
component's `authenticated` and `userInfo` fields exactly as they were. -/
theorem component_login_logout_frame (c : ComponentState) :
    (compLogin c).1.authenticated = c.authenticated ∧
      (compLogin c).1.userInfo = c.userInfo ∧
      (compLogout c).1.authenticated = c.authenticated ∧
      (compLogout c).1.userInfo = c.userInfo := by
  refine ⟨rfl, rfl, rfl, rfl⟩
